import Mathlib

/-
Verification of the cmd-line-executor MCP server
(src/src/cmd_line_executor/server.py) against its specification.

The server exposes two handlers: `list_tools` (a static catalog with one
tool, "run_command") and `call_tool` (shape validation followed by a call
to `run_cmd_line`, which spawns a subprocess and normalizes its output).

The embedding makes the interaction with the operating system explicit:
every behaviour the OS chooses during one invocation of `run_cmd_line`
(did the spawn raise, which exception class, the exit status, whether each
captured byte stream decodes and to what text) is packaged in an
`OSOutcome` value, and `run_cmd_line` becomes a total function of the
inputs and that outcome, mirroring the Python control flow line by line.
-/

namespace CmdLineExecutor

/-- ASCII whitespace stripped by Python's `str.strip()`: space, tab,
newline, carriage return, vertical tab, form feed.  (Python additionally
strips non-ASCII Unicode whitespace; the embedding restricts stream
contents to the ASCII range, which all claims live in.) -/
def pyIsSpace (c : Char) : Bool :=
  c = ' ' || c = '\t' || c = '\n' || c = '\r' || c = '\x0b' || c = '\x0c'

/-- Python `str.strip()`: remove leading and trailing whitespace. -/
def pyStrip (s : String) : String :=
  String.mk (((s.data.dropWhile pyIsSpace).reverse.dropWhile pyIsSpace).reverse)

/-- Stripping trailing whitespace only (`str.rstrip()`).  This is NOT what
the source calls; it is stated so that the specification's wording of the
normalization pipeline ("stripping trailing whitespace") can be compared
with the source's `.strip()`, which strips both ends. -/
def pyStripTrailing (s : String) : String :=
  String.mk ((s.data.reverse.dropWhile pyIsSpace).reverse)

/-- Python `s.split('\n')`: cut at every newline, keeping empty segments
(`"".split('\n') = [""]`).  Written by structural recursion over the
character list so that proofs can evaluate it. -/
def splitNewlines : List Char → List String
  | [] => [""]
  | c :: rest =>
    if c = '\n' then "" :: splitNewlines rest
    else
      match splitNewlines rest with
      | [] => [String.mk [c]]
      | l :: ls => String.mk (c :: l.data) :: ls

/-- Mirrors server.py line 44/45 applied to a decoded stream `s`:
`s.strip().split('\n') if s else []` followed by line 47/48's
`[line for line in lines if line]` (Python string truthiness = nonempty).
The `if s` guard mirrors `if stdout_bytes`: the byte string is empty
exactly when its decoded text is empty. -/
def toLines (s : String) : List String :=
  if s.isEmpty then []
  else (splitNewlines (pyStrip s).data).filter (fun l => !l.isEmpty)

/-- The normalization pipeline exactly as the specification words it:
decode, strip TRAILING whitespace, split on newlines, discard empty
segments.  Stated only for comparison with `toLines` (the source). -/
def specToLines (s : String) : List String :=
  (splitNewlines (pyStripTrailing s).data).filter (fun l => !l.isEmpty)

/-- Mirrors server.py lines 31-33: `cmd_list = [cmd]; if args:
cmd_list.append(args)`.  Python truthiness: a `str | None` value passes
`if args:` only when it is neither `None` nor the empty string. -/
def cmd_list (cmd : String) (args : Option String) : List String :=
  match args with
  | none => [cmd]
  | some a => if a.isEmpty then [cmd] else [cmd, a]

/-- Everything the operating system decides during one invocation of
`run_cmd_line` (server.py lines 35-48):
* `subprocessError msg`: `create_subprocess_exec`/`communicate` raised
  `subprocess.SubprocessError` with message `msg` (line 58);
* `otherError msg`: they raised some other exception, e.g.
  `FileNotFoundError` or `PermissionError` from the spawn (line 66);
* `completed rc sd ed`: the process ran to completion with
  `process.returncode = rc` (`none` models Python `None`), and decoding
  the captured stdout/stderr bytes as text gave `sd`/`ed` — `.ok text`
  on success, `.error msg` when `.decode()` raised (a `UnicodeDecodeError`
  carrying `msg`, which is not a `SubprocessError`).  Empty captured bytes
  decode to `.ok ""`. -/
inductive OSOutcome where
  | subprocessError (msg : String)
  | otherError (msg : String)
  | completed (returncode : Option Int) (stdoutDecoded stderrDecoded : Except String String)
deriving Repr

/-- The dictionary returned by `run_cmd_line` (keys `cmd`, `args`,
`status_code`, `stdout`, `stderr`; server.py lines 50-73). -/
structure CommandResult where
  cmd : String
  args : Option String
  status_code : Int
  stdout : List String
  stderr : List String
deriving DecidableEq, Repr

/-- Python `process.returncode or 0` (server.py line 53): `0` when the
return code is `None` or `0` (both falsy), the code itself otherwise. -/
def statusOr (rc : Option Int) : Int :=
  match rc with
  | none => 0
  | some c => if c = 0 then 0 else c

/-- Shallow embedding of `run_cmd_line` (server.py lines 29-73) as a total
function of the inputs and the OS outcome.  The `try` block covers the
spawn, `communicate`, and both `.decode()` calls; stdout is decoded before
stderr, so when both streams fail to decode the stdout message wins.  A
`SubprocessError` lands in the first handler (bare `str(e)`), any other
exception in the second (prefixed `"Unexpected error: "`).  Totality of
this function is the embedding of "no exception propagates out". -/
def run_cmd_line (cmd : String) (args : Option String) (os : OSOutcome) : CommandResult :=
  match os with
  | .subprocessError msg =>
      { cmd := cmd, args := args, status_code := 1, stdout := [], stderr := [msg] }
  | .otherError msg =>
      { cmd := cmd, args := args, status_code := 1, stdout := [],
        stderr := ["Unexpected error: " ++ msg] }
  | .completed rc sd ed =>
      match sd with
      | .error msg =>
          { cmd := cmd, args := args, status_code := 1, stdout := [],
            stderr := ["Unexpected error: " ++ msg] }
      | .ok s =>
          match ed with
          | .error msg =>
              { cmd := cmd, args := args, status_code := 1, stdout := [],
                stderr := ["Unexpected error: " ++ msg] }
          | .ok e =>
              { cmd := cmd, args := args, status_code := statusOr rc,
                stdout := toLines s, stderr := toLines e }

/-- The process-creation request `run_cmd_line` issues (server.py lines
36-40): `asyncio.create_subprocess_exec(*cmd_list, stdout=PIPE,
stderr=PIPE)`.  The `exec` family never goes through a shell; `stdin` is
not passed, so the child receives no standard input. -/
structure SpawnSpec where
  argv : List String
  useShell : Bool
  stdoutToPipe : Bool
  stderrToPipe : Bool
  stdinSupplied : Bool
deriving DecidableEq, Repr

/-- The spawn request as a function of the handler inputs. -/
def spawnRequest (cmd : String) (args : Option String) : SpawnSpec :=
  { argv := cmd_list cmd args
    useShell := false
    stdoutToPipe := true
    stderrToPipe := true
    stdinSupplied := false }

/-- One property entry of the tool's input schema (server.py lines
84-97). -/
structure PropertySpec where
  type : String
  description : String
deriving DecidableEq, Repr

/-- The `inputSchema` object of a tool descriptor. -/
structure InputSchema where
  type : String
  properties : List (String × PropertySpec)
  required : List String
deriving DecidableEq, Repr

/-- A tool descriptor as returned by `list_tools`. -/
structure Tool where
  name : String
  description : String
  inputSchema : InputSchema
deriving DecidableEq, Repr

/-- Shallow embedding of `list_tools` (server.py lines 77-99).  The
handler takes no inputs, reads no state and performs no effects, so it is
a constant: every call, whatever came before it, returns this list. -/
def list_tools : List Tool :=
  [ { name := "run_command"
      description := "Runs a local command on the command line. Can take arguments."
      inputSchema :=
        { type := "object"
          properties :=
            [ ("cmd", { type := "string", description := "The command to run." }),
              ("args", { type := "string", description := "The arguments to the command" }) ]
          required := ["cmd"] } } ]

/-- The `arguments: Any` payload of a CallTool request, as far as the
dispatcher inspects it: either not a dict at all, or a dict given as an
association list of string keys.  Values are modelled as strings, the
type the schema declares; the dispatcher itself never checks value
types. -/
inductive ToolArguments where
  | notDict
  | dict (fields : List (String × String))
deriving DecidableEq, Repr

/-- Whether the payload is a dict containing the key `"cmd"` (the check
on server.py line 107). -/
def hasCmd : ToolArguments → Bool
  | .notDict => false
  | .dict fields => (fields.lookup "cmd").isSome

/-- What `call_tool` does with a request: raise `ValueError(msg)` before
running anything (lines 105 and 108), or succeed with the
`run_cmd_line` result (wrapped by the caller into a text content
block). -/
inductive CallToolOutcome where
  | raisedValueError (msg : String)
  | success (result : CommandResult)
deriving DecidableEq, Repr

/-- Shallow embedding of `call_tool` (server.py lines 101-126).  The
returned Bool records whether `run_cmd_line` was invoked.  Mirrors the
source order: the tool-name check first, then the dict/`"cmd"` shape
check, then `args = arguments["args"] if "args" in arguments else None`,
then the call to `run_cmd_line`. -/
def call_tool (name : String) (arguments : ToolArguments) (os : OSOutcome) :
    CallToolOutcome × Bool :=
  if name ≠ "run_command" then
    (.raisedValueError ("Unknown tool: " ++ name), false)
  else
    match arguments with
    | .notDict => (.raisedValueError "Invalid arguments", false)
    | .dict fields =>
        match fields.lookup "cmd" with
        | none => (.raisedValueError "Invalid arguments", false)
        | some cmd =>
            let args : Option String := fields.lookup "args"
            (.success (run_cmd_line cmd args os), true)

/-- The `if s.isEmpty` guard in `toLines` is redundant: the pipeline on
the empty string already yields the empty list. -/
lemma toLines_eq_pipeline (s : String) :
    toLines s = (splitNewlines (pyStrip s).data).filter (fun l => !l.isEmpty) := by
  unfold toLines
  split
  · rename_i h
    have hs : s = "" := (String.isEmpty_iff s).mp h
    subst hs
    rfl
  · rfl

/-- Filtering with Python string truthiness leaves no empty string. -/
lemma empty_not_mem_filter (l : List String) :
    "" ∉ l.filter (fun x => !x.isEmpty) := fun h =>
  absurd (List.mem_filter.mp h).2 (by decide)

/-- C1: Whenever the OS-level spawn fails — whether the exception is a
`SubprocessError` (first handler, bare message) or any other exception
such as `FileNotFoundError` or `PermissionError` (second handler,
prefixed message) — `run_cmd_line` returns exit code 1, no stdout lines,
and exactly one stderr line describing the failure; being a total
function of its inputs and the OS outcome, it propagates no exception. -/
theorem C1_spawn_failure_envelope (cmd : String) (args : Option String) (msg : String) :
    ((run_cmd_line cmd args (.subprocessError msg)).status_code = 1 ∧
      (run_cmd_line cmd args (.subprocessError msg)).stdout = [] ∧
      (run_cmd_line cmd args (.subprocessError msg)).stderr = [msg]) ∧
    ((run_cmd_line cmd args (.otherError msg)).status_code = 1 ∧
      (run_cmd_line cmd args (.otherError msg)).stdout = [] ∧
      (run_cmd_line cmd args (.otherError msg)).stderr = ["Unexpected error: " ++ msg]) :=
  ⟨⟨rfl, rfl, rfl⟩, ⟨rfl, rfl, rfl⟩⟩

/-- C2 counterexample: for `arguments` present and non-null but EMPTY,
the claimed vector `[command, arguments]` is not what the code builds —
Python's `if args:` is false on the empty string, so the vector is just
`[command]`. -/
theorem C2_counterexample :
    cmd_list "echo" (some "") ≠ ["echo", ""] ∧ cmd_list "echo" (some "") = ["echo"] := by
  decide

/-- C2 (amended): the argument vector is `[command, arguments]` — exactly
one extra token, never split further — whenever `arguments` is present,
non-null and non-empty; a present-but-empty argument string is dropped,
like an absent one, giving `[command]` alone. -/
theorem C2_argv_construction (cmd : String) (a : String) :
    (a ≠ "" → cmd_list cmd (some a) = [cmd, a]) ∧
    cmd_list cmd (some "") = [cmd] ∧
    cmd_list cmd none = [cmd] := by
  refine ⟨fun h => ?_, rfl, rfl⟩
  simp [cmd_list, String.isEmpty_iff, h]

theorem C2_argv_construction_witness :
    ("hello world" : String) ≠ "" ∧
    cmd_list "echo" (some "hello world") = ["echo", "hello world"] :=
  ⟨by decide, (C2_argv_construction "echo" "hello world").1 (by decide)⟩

/-- C3 counterexample: on a completed process whose captured stdout
decodes to `" a"` (leading space), `run_cmd_line` yields `["a"]` — the
source's `.strip()` removes LEADING whitespace as well — whereas the
pipeline as the specification words it (trailing strip only) yields
`[" a"]`. -/
theorem C3_counterexample :
    (run_cmd_line "cat" none (.completed (some 0) (.ok " a") (.ok ""))).stdout ≠
      specToLines " a" ∧
    (run_cmd_line "cat" none (.completed (some 0) (.ok " a") (.ok ""))).stdout = ["a"] ∧
    specToLines " a" = [" a"] := by
  decide

/-- C3 (amended): for every completed process whose streams decode
successfully, `run_cmd_line` produces `stdout`/`stderr` by stripping
BOTH leading and trailing whitespace, splitting on newline boundaries,
and discarding empty segments; consequently neither list ever contains
an empty string. -/
theorem C3_line_normalization (cmd : String) (args : Option String)
    (rc : Option Int) (sd ed : String) :
    (run_cmd_line cmd args (.completed rc (.ok sd) (.ok ed))).stdout =
      (splitNewlines (pyStrip sd).data).filter (fun l => !l.isEmpty) ∧
    (run_cmd_line cmd args (.completed rc (.ok sd) (.ok ed))).stderr =
      (splitNewlines (pyStrip ed).data).filter (fun l => !l.isEmpty) ∧
    "" ∉ (run_cmd_line cmd args (.completed rc (.ok sd) (.ok ed))).stdout ∧
    "" ∉ (run_cmd_line cmd args (.completed rc (.ok sd) (.ok ed))).stderr := by
  refine ⟨toLines_eq_pipeline sd, toLines_eq_pipeline ed, ?_, ?_⟩
  · show "" ∉ toLines sd
    rw [toLines_eq_pipeline]
    exact empty_not_mem_filter _
  · show "" ∉ toLines ed
    rw [toLines_eq_pipeline]
    exact empty_not_mem_filter _

/-- C4: a CallTool request whose tool name is not "run_command" raises
`ValueError("Unknown tool: ...")` without invoking the runner, and a
request whose payload is not a dict containing the key "cmd" raises
`ValueError("Invalid arguments")` without invoking the runner (the
returned Bool records whether `run_cmd_line` was invoked). -/
theorem C4_dispatch_validation (name : String) (arguments : ToolArguments) (os : OSOutcome) :
    (name ≠ "run_command" →
      call_tool name arguments os =
        (.raisedValueError ("Unknown tool: " ++ name), false)) ∧
    (hasCmd arguments = false →
      call_tool "run_command" arguments os =
        (.raisedValueError "Invalid arguments", false)) := by
  constructor
  · intro h
    simp [call_tool, h]
  · intro h
    cases arguments with
    | notDict => rfl
    | dict fields =>
        cases hl : fields.lookup "cmd" with
        | none => simp [call_tool, hl]
        | some v => simp [hasCmd, hl] at h

theorem C4_dispatch_validation_witness :
    ("delete_everything" : String) ≠ "run_command" ∧
    call_tool "delete_everything" (.dict [("cmd", "ls")])
        (.completed none (.ok "") (.ok "")) =
      (.raisedValueError ("Unknown tool: " ++ "delete_everything"), false) ∧
    hasCmd .notDict = false ∧
    call_tool "run_command" .notDict (.completed none (.ok "") (.ok "")) =
      (.raisedValueError "Invalid arguments", false) :=
  ⟨by decide,
   (C4_dispatch_validation "delete_everything" (.dict [("cmd", "ls")])
     (.completed none (.ok "") (.ok ""))).1 (by decide),
   rfl,
   (C4_dispatch_validation "run_command" .notDict
     (.completed none (.ok "") (.ok ""))).2 rfl⟩

/-- C5: for a process that spawns and runs to completion (streams
decoding successfully), the returned `status_code` is the process's real
return code, with an absent (`None`) code treated as 0; Python's
`returncode or 0` also maps a literal 0 to 0, which agrees with the real
status. -/
theorem C5_real_exit_status (cmd : String) (args : Option String)
    (rc : Option Int) (sd ed : String) :
    (run_cmd_line cmd args (.completed rc (.ok sd) (.ok ed))).status_code = rc.getD 0 := by
  show statusOr rc = rc.getD 0
  cases rc with
  | none => rfl
  | some c =>
      unfold statusOr
      by_cases h : c = 0
      · simp [h]
      · simp [h]

/-- C6: every invocation issues a spawn request that does not go through
a shell, pipes both standard output and standard error, and supplies no
standard input to the child. -/
theorem C6_spawn_configuration (cmd : String) (args : Option String) :
    (spawnRequest cmd args).useShell = false ∧
    (spawnRequest cmd args).stdoutToPipe = true ∧
    (spawnRequest cmd args).stderrToPipe = true ∧
    (spawnRequest cmd args).stdinSupplied = false :=
  ⟨rfl, rfl, rfl, rfl⟩

/-- C7: `list_tools` is a constant (no inputs, no read state, no
effects), so every call — regardless of prior calls — returns the same
catalog: exactly one descriptor, named "run_command", whose input schema
is an object with a required string field `cmd` and a string field
`args` that is not required. -/
theorem C7_static_tool_catalog :
    list_tools.length = 1 ∧
    list_tools.map (fun t => t.name) = ["run_command"] ∧
    list_tools.map (fun t => t.inputSchema.type) = ["object"] ∧
    list_tools.map (fun t => t.inputSchema.required) = [["cmd"]] ∧
    list_tools.map
        (fun t => (t.inputSchema.properties.lookup "cmd").map (fun p => p.type)) =
      [some "string"] ∧
    list_tools.map
        (fun t => (t.inputSchema.properties.lookup "args").map (fun p => p.type)) =
      [some "string"] ∧
    list_tools.all (fun t => !(t.inputSchema.required.contains "args")) = true := by
  decide

/-- C8: `run_cmd_line` keeps no state between calls — it is a function of
the inputs and the OS behaviour alone — so two invocations with identical
inputs and identical OS behaviour yield identical results. -/
theorem C8_deterministic (cmd : String) (args : Option String)
    (os₁ os₂ : OSOutcome) (h : os₁ = os₂) :
    run_cmd_line cmd args os₁ = run_cmd_line cmd args os₂ := by
  rw [h]

theorem C8_deterministic_witness :
    OSOutcome.completed (some 0) (.ok "hello\n") (.ok "") =
      OSOutcome.completed (some 0) (.ok "hello\n") (.ok "") ∧
    run_cmd_line "echo" (some "hello") (.completed (some 0) (.ok "hello\n") (.ok "")) =
      run_cmd_line "echo" (some "hello") (.completed (some 0) (.ok "hello\n") (.ok "")) :=
  ⟨rfl, C8_deterministic "echo" (some "hello") _ _ rfl⟩

/-- C9: on every outcome — success, spawn failure, or post-spawn
failure — the result echoes the inputs unchanged: its `cmd` field equals
the input command and its `args` field equals the input arguments
(`none` when absent). -/
theorem C9_echoes_inputs (cmd : String) (args : Option String) (os : OSOutcome) :
    (run_cmd_line cmd args os).cmd = cmd ∧ (run_cmd_line cmd args os).args = args := by
  cases os with
  | subprocessError msg => exact ⟨rfl, rfl⟩
  | otherError msg => exact ⟨rfl, rfl⟩
  | completed rc sd ed =>
      cases sd with
      | error m => exact ⟨rfl, rfl⟩
      | ok s =>
          cases ed with
          | error m => exact ⟨rfl, rfl⟩
          | ok e => exact ⟨rfl, rfl⟩

/-- C10: a failure after a successful spawn — either captured stream
failing to decode as text — is caught by the generic handler and yields
the same uniform envelope as spawn failures: exit code 1, no stdout
lines, exactly one stderr line prefixed "Unexpected error: "; the real
return code and any captured output are discarded (the equations hold
for every `rc` and for arbitrary content of the other stream). -/
theorem C10_post_spawn_failure_envelope (cmd : String) (args : Option String)
    (rc : Option Int) (sd : String) (ed : Except String String) (msg : String) :
    run_cmd_line cmd args (.completed rc (.error msg) ed) =
      { cmd := cmd, args := args, status_code := 1, stdout := [],
        stderr := ["Unexpected error: " ++ msg] } ∧
    run_cmd_line cmd args (.completed rc (.ok sd) (.error msg)) =
      { cmd := cmd, args := args, status_code := 1, stdout := [],
        stderr := ["Unexpected error: " ++ msg] } :=
  ⟨rfl, rfl⟩

end CmdLineExecutor
